import Mathlib

/-!
Verification of the aexClock menu/widget core: the audio mixer pane
(src/widgets/audio_mixer.rs), the network pane (src/widgets/net_connect.rs)
and the menu host (src/widgets/content_menu.rs), shallowly embedded.

Conventions of the embedding:
- Rust `usize`/`u8` values are `Nat`; where the source computes in `i32`
  the model computes in `Int` with explicit casts.
- An unconditional list index `v[i]` is modelled with `List.get?`; an
  operation that can panic on an out-of-bounds index returns `Option`,
  `none` standing for the panic.
- External commands (pactl, nmcli) are out of the model: their observable
  outcome (exit status, parsed output) is passed in as a parameter, and the
  arguments a function would hand to the external command are returned as
  data so theorems can speak about which invocation (if any) happens.
- Threads, locks and sleeping are not modelled; the body of a worker loop
  iteration is embedded as a pure state transition on the pane snapshot,
  which is faithful because all mutation in the source happens under the
  single pane lock.
-/

/-- Outcome of an external `Command::status()` / `Command::output()` call:
`Ok` with success exit status, `Ok` with failing exit status, or `Err`. -/
inductive CmdResult where
  | ok_success
  | ok_failure
  | err
deriving DecidableEq, Repr

/-- The selection-index update shared verbatim by the three panes
(`move_selected_down` in audio_mixer.rs, net_connect.rs, content_menu.rs):
increment the index and wrap it to 0 once it reaches the list length. -/
def wrap_next (n i : Nat) : Nat :=
  if i + 1 ≥ n then 0 else i + 1

/-! ## Audio mixer pane (src/widgets/audio_mixer.rs) -/

/-- State of the audio mixer pane. A channel entry of `audio_list` is
`(application name, volume, sink input id)`, mirroring
`Vec<(String, u8, String)>` in the source. -/
structure AudioMixer where
  selected_audio : Nat
  selected_id : String
  selected_volume : Nat
  audio_list : List (String × Nat × String)
  started_refresh : Bool
deriving Repr

namespace AudioMixer

/-- Mirror of `AudioMixer::new`. -/
def new : AudioMixer :=
  { selected_audio := 0
    audio_list := []
    started_refresh := false
    selected_volume := 0
    selected_id := "" }

/-- Mirror of `AudioMixer::move_selected_down`: increment the index, wrap to
0 when it reaches the list length, then read
`audio_list[selected_audio]` unconditionally to refresh the mirrors.
The read is out of bounds exactly when the list is empty; `none` models the
panic of the source there. -/
def move_selected_down (s : AudioMixer) : Option AudioMixer :=
  let sel₂ := wrap_next s.audio_list.length s.selected_audio
  match s.audio_list.get? sel₂ with
  | none => none
  | some (_, volume, id) =>
      some { s with selected_audio := sel₂, selected_volume := volume, selected_id := id }

/-- Mirror of `AudioMixer::move_selected_up`: `number = selected as i32 - 1`,
saturating decrement, and on underflow jump to `len - 1`; then the same
unconditional read of `audio_list[selected_audio]` as in the down move
(`none` models the panic on an empty list). -/
def move_selected_up (s : AudioMixer) : Option AudioMixer :=
  let number : Int := (s.selected_audio : Int) - 1
  let sel₁ := s.selected_audio - 1
  let sel₂ := if number < 0 then s.audio_list.length - 1 else sel₁
  match s.audio_list.get? sel₂ with
  | none => none
  | some (_, volume, id) =>
      some { s with selected_audio := sel₂, selected_volume := volume, selected_id := id }

/-- One iteration of the worker loop body spawned by
`AudioMixer::start_auto_refresh` (lines 78-93): replace `audio_list` with
the freshly fetched list, then, when the new list is non-empty, refresh the
mirrors from `audio_list[selected_audio]` without re-clamping
`selected_audio`; the read is out of bounds when the new list is shorter
than the stale index (`none` models the panic). -/
def refresh_step (s : AudioMixer) (new_list : List (String × Nat × String)) :
    Option AudioMixer :=
  let s₁ := { s with audio_list := new_list }
  if s₁.audio_list.length ≠ 0 then
    match s₁.audio_list.get? s₁.selected_audio with
    | none => none
    | some (_, volume, id) =>
        some { s₁ with selected_volume := volume, selected_id := id }
  else
    some s₁

/-- The check-and-set prologue of `AudioMixer::start_auto_refresh`: under the
lock, return as a no-op when `started_refresh` is already set, otherwise set
it and spawn the worker. The second component tells whether the worker
thread was spawned. -/
def start_auto_refresh (s : AudioMixer) : AudioMixer × Bool :=
  if s.started_refresh then (s, false)
  else ({ s with started_refresh := true }, true)

/-- The delta actually requested of pactl by `AudioMixer::add_volume`:
`am` starts as `amount` and is zeroed when the move would overshoot
(increase past 100) or undershoot (decrease below 0), both tests done in
`i32` on the current `selected_volume`. -/
def requested_amount (selected_volume amount : Nat) (increase : Bool) : Nat :=
  let vol : Int := (selected_volume : Int)
  let am₁ := amount
  let am₂ := if vol + (amount : Int) > 100 ∧ increase = true then 0 else am₁
  let am₃ := if vol - (amount : Int) < 0 ∧ increase = false then 0 else am₂
  am₃

/-- Mirror of `AudioMixer::add_volume`: compute the requested delta, run
`pactl set-sink-input-volume id ±am%` (outcome passed in as `status`), and
on success replace `audio_list` with a fresh fetch (passed in as `fetched`);
on a failing status or spawn error the state is left unchanged. The second
component is the request handed to pactl: `(delta, increase, id)`. Note the
source never updates `selected_volume` or `selected_id` here. -/
def add_volume (s : AudioMixer) (id : String) (amount : Nat) (increase : Bool)
    (status : CmdResult) (fetched : List (String × Nat × String)) :
    AudioMixer × (Nat × Bool × String) :=
  let am := requested_amount s.selected_volume amount increase
  match status with
  | .ok_success => ({ s with audio_list := fetched }, (am, increase, id))
  | .ok_failure => (s, (am, increase, id))
  | .err => (s, (am, increase, id))

/-- Consistency of the selection mirrors with the entry at the selection
index, the invariant stated by the spec for the audio pane. -/
def mirrors_consistent (s : AudioMixer) : Prop :=
  ∃ name, s.audio_list.get? s.selected_audio =
    some (name, s.selected_volume, s.selected_id)

end AudioMixer

/-- C3: the volume adjustment requested of the adapter follows the
overshoot-zeroing rule: for the fixed step 5 and any current volume
v in 0..100, an increase requests delta 5 when v + 5 ≤ 100 and delta 0 when
v + 5 > 100 (so the post-adjustment value is v on overshoot, v + 5
otherwise), symmetrically a decrease requests 5 when v - 5 ≥ 0 and 0 when
v - 5 < 0, and the boundary v + 5 = 100 is a full-step increase. -/
theorem c3_overshoot_zeroing (v : Nat) (hv : v ≤ 100) :
    (AudioMixer.requested_amount v 5 true = if v + 5 > 100 then 0 else 5)
    ∧ (v + AudioMixer.requested_amount v 5 true = if v + 5 > 100 then v else v + 5)
    ∧ (AudioMixer.requested_amount v 5 false = if v < 5 then 0 else 5)
    ∧ (v - AudioMixer.requested_amount v 5 false = if v < 5 then v else v - 5)
    ∧ (v + 5 = 100 → AudioMixer.requested_amount v 5 true = 5) := by
  refine ⟨?_, ?_, ?_, ?_, ?_⟩ <;>
    · simp only [AudioMixer.requested_amount, and_true, and_false, if_false,
        gt_iff_lt, Bool.true_eq_false, Bool.false_eq_true]
      split_ifs <;> omega

/-- Witness for C3 at the boundary volume 95: 95 + 5 = 100 is a full-step
increase. -/
theorem c3_overshoot_zeroing_witness :
    95 ≤ 100 ∧
      (AudioMixer.requested_amount 95 5 true = if 95 + 5 > 100 then 0 else 5) :=
  ⟨by decide, (c3_overshoot_zeroing 95 (by decide)).1⟩

/-- C1 (code bug): the selection index is not re-clamped. Evaluating the
embedded code at two concrete inputs: a content-down move on an empty
channel list reads `audio_list[0]` out of bounds (the source panics,
modelled as `none`), and one worker refresh that replaces a five-entry list
by a two-entry one while `selected_audio = 4` reads `audio_list[4]` out of
bounds (again `none`). -/
theorem c1_audio_index_out_of_bounds :
    AudioMixer.move_selected_down
        { selected_audio := 0, selected_id := "", selected_volume := 0,
          audio_list := [], started_refresh := true } = none
    ∧ AudioMixer.refresh_step
        { selected_audio := 4, selected_id := "e", selected_volume := 10,
          audio_list := [("a", 1, "1"), ("b", 2, "2"), ("c", 3, "3"),
            ("d", 4, "4"), ("e", 10, "5")],
          started_refresh := true }
        [("a", 1, "1"), ("b", 2, "2")] = none := by
  constructor <;> rfl

/-- C2 (counterexample): a successful volume adjustment replaces the channel
list with the fresh fetch but leaves the mirrors stale. Starting from the
consistent one-channel state (volume 50), an accepted +5 adjustment whose
re-fetch returns volume 55 yields a state whose entry at the selection index
has volume 55 while `selected_volume` is still 50. -/
theorem c2_counterexample :
    ¬ AudioMixer.mirrors_consistent
        (AudioMixer.add_volume
          { selected_audio := 0, selected_id := "7", selected_volume := 50,
            audio_list := [("app", 50, "7")], started_refresh := true }
          "7" 5 true .ok_success [("app", 55, "7")]).1 := by
  simp [AudioMixer.mirrors_consistent, AudioMixer.add_volume,
    AudioMixer.requested_amount]

/-! ## Network pane (src/widgets/net_connect.rs) -/

/-- State of the network pane. A wifi entry is `(ssid, signal)`, mirroring
`Vec<(String, u8)>` in the source. -/
structure NetConnect where
  selected_ssid : Nat
  wifi_list : List (String × Nat)
  started_refresh : Bool
  connected_ssid : String
  show_prompt : Bool
  prompt_ssid : String
  prompt_pass : String
  show_info : Bool
  connection_info : List String
  scroll_offset : Nat
deriving Repr

/-- A key event as the pane dispatch observes it: which configured logical
bindings the event matches (via `Config::key_matches`), whether the event is
a key press, whether its code is Backspace, and its character when the code
is `KeyCode::Char`. Keeping the match results abstract embeds the dispatch
faithfully for an arbitrary keybinding configuration. -/
structure NetKeyEvent where
  is_press : Bool
  matches_accept : Bool
  matches_cancel : Bool
  matches_info : Bool
  matches_content_up : Bool
  matches_content_down : Bool
  is_backspace : Bool
  char : Option Char
deriving Repr

namespace NetConnect

/-- Mirror of `NetConnect::new`. -/
def new : NetConnect :=
  { selected_ssid := 0
    wifi_list := []
    started_refresh := false
    connected_ssid := ""
    show_prompt := false
    prompt_ssid := ""
    prompt_pass := ""
    show_info := false
    connection_info := []
    scroll_offset := 0 }

/-- Mirror of `NetConnect::move_selected_down`: increment and wrap to 0 at
the list length. No list element is read. -/
def move_selected_down (s : NetConnect) : NetConnect :=
  { s with selected_ssid := wrap_next s.wifi_list.length s.selected_ssid }

/-- Mirror of `NetConnect::move_selected_up`: saturating decrement, jumping
to `len - 1` on underflow. The subtraction is `Nat` subtraction; on an empty
list the source computes `0usize - 1`, which panics in a debug build, while
the model yields 0 — no claim depends on that corner. -/
def move_selected_up (s : NetConnect) : NetConnect :=
  let number : Int := (s.selected_ssid : Int) - 1
  let sel₁ := s.selected_ssid - 1
  { s with selected_ssid := if number < 0 then s.wifi_list.length - 1 else sel₁ }

/-- Mirror of `NetConnect::move_scrollbar_up`: decrement when positive. -/
def move_scrollbar_up (s : NetConnect) : NetConnect :=
  if s.scroll_offset > 0 then { s with scroll_offset := s.scroll_offset - 1 }
  else s

/-- Mirror of `NetConnect::move_scrollbar_down`: the maximal offset is
`connection_info.len().saturating_sub(15)` (Nat subtraction models the
saturation) and the offset is incremented strictly below it. -/
def move_scrollbar_down (s : NetConnect) : NetConnect :=
  let max_offset := s.connection_info.length - 15
  if s.scroll_offset < max_offset then { s with scroll_offset := s.scroll_offset + 1 }
  else s

/-- Mirror of `NetConnect::close_info`. -/
def close_info (s : NetConnect) : NetConnect :=
  { s with show_info := false, scroll_offset := 0 }

/-- Mirror of `NetConnect::open_info`. -/
def open_info (s : NetConnect) : NetConnect :=
  { s with show_info := true }

/-- Mirror of `NetConnect::open_prompt`: seed `prompt_ssid` from the selected
entry (empty when the index is out of range, via `get`/`unwrap_or_default`)
and clear the password buffer. -/
def open_prompt (s : NetConnect) : NetConnect :=
  { s with
    show_prompt := true
    prompt_ssid := ((s.wifi_list.get? s.selected_ssid).map Prod.fst).getD ""
    prompt_pass := "" }

/-- Mirror of `NetConnect::connect_to_wifi`, reduced to its observable
effect: the function returns early when the password is empty, running no
external command; otherwise it invokes
`nmcli device wifi connect ssid password pass`. The result is the argument
pair of that invocation, `none` when no command is run. -/
def connect_command (ssid password : String) : Option (String × String) :=
  if password = "" then none else some (ssid, password)

/-- Mirror of `NetConnect::accept_connect`: trigger the connect action with
the captured ssid and password, then close the prompt and clear both
buffers regardless of the outcome. -/
def accept_connect (s : NetConnect) : NetConnect × Option (String × String) :=
  ({ s with show_prompt := false, prompt_ssid := "", prompt_pass := "" },
   connect_command s.prompt_ssid s.prompt_pass)

/-- Mirror of `NetConnect::cancel_connect`: close the prompt and clear both
buffers without connecting. -/
def cancel_connect (s : NetConnect) : NetConnect :=
  { s with show_prompt := false, prompt_ssid := "", prompt_pass := "" }

/-- Mirror of `NetConnect::handle_key_event` (plus the press filter of
`handle_events`): prompt mode routes accept/cancel-or-info/backspace/char,
info mode routes the scrollbar and the three closing bindings, and browsing
mode routes navigation, prompt opening and info opening. The second
component is the nmcli connect invocation, `none` when none happens. -/
def handle_key_event (s : NetConnect) (k : NetKeyEvent) :
    NetConnect × Option (String × String) :=
  if k.is_press = false then (s, none)
  else if s.show_prompt then
    if k.matches_accept then s.accept_connect
    else if k.matches_cancel || k.matches_info then (s.cancel_connect, none)
    else if k.is_backspace then
      ({ s with prompt_pass := s.prompt_pass.dropRight 1 }, none)
    else
      match k.char with
      | some c => ({ s with prompt_pass := s.prompt_pass.push c }, none)
      | none => (s, none)
  else if s.show_info then
    if k.matches_content_up then (s.move_scrollbar_up, none)
    else if k.matches_content_down then (s.move_scrollbar_down, none)
    else if k.matches_accept || k.matches_cancel || k.matches_info then
      (s.close_info, none)
    else (s, none)
  else
    if k.matches_content_up then (s.move_selected_up, none)
    else if k.matches_content_down then (s.move_selected_down, none)
    else if k.matches_accept then (s.open_prompt, none)
    else if k.matches_info then (s.open_info, none)
    else (s, none)

/-- Fold a sequence of key events through the handler, discarding the
connect invocations. -/
def applyKeys (keys : List NetKeyEvent) (s : NetConnect) : NetConnect :=
  keys.foldl (fun t k => (t.handle_key_event k).1) s

/-- One iteration of the worker loop body spawned by
`NetConnect::start_auto_refresh` (lines 105-116): under the lock, replace
`connected_ssid`, `connection_info` and `wifi_list` with the freshly
fetched values (the three nmcli results are parameters of the model). -/
def refresh_step (s : NetConnect) (new_list : List (String × Nat))
    (new_connected : String) (new_info : List String) : NetConnect :=
  { s with
    connected_ssid := new_connected
    connection_info := new_info
    wifi_list := new_list }

/-- The check-and-set prologue of `NetConnect::start_auto_refresh`: no-op
when `started_refresh` is already set, otherwise set it and spawn the
worker. The second component tells whether the worker thread was spawned. -/
def start_auto_refresh (s : NetConnect) : NetConnect × Bool :=
  if s.started_refresh then (s, false)
  else ({ s with started_refresh := true }, true)

end NetConnect

/-! ## Menu host (src/widgets/content_menu.rs) -/

/-- State of the menu host. The `items` vector of the source holds a title
plus boxed event/starter/render closures per entry; only the titles (and
hence the length of the list) are data, so the model keeps the titles. -/
structure ContentMenu where
  selected_button : Nat
  items : List String
deriving Repr

namespace ContentMenu

/-- Mirror of `ContentMenu::move_selected_down`: increment and wrap to 0 at
the item count. -/
def move_selected_down (m : ContentMenu) : ContentMenu :=
  { m with selected_button := wrap_next m.items.length m.selected_button }

/-- Mirror of `ContentMenu::move_selected_up`: saturating decrement, jumping
to `len - 1` on underflow (Nat subtraction; no claim touches the empty
corner). -/
def move_selected_up (m : ContentMenu) : ContentMenu :=
  let number : Int := (m.selected_button : Int) - 1
  let sel₁ := m.selected_button - 1
  { m with selected_button := if number < 0 then m.items.length - 1 else sel₁ }

end ContentMenu

/-! ## Wraparound arithmetic of the selection index -/

theorem wrap_next_eq_mod (n i : Nat) (h : i < n) :
    wrap_next n i = (i + 1) % n := by
  unfold wrap_next
  split_ifs with hge
  · have : i + 1 = n := by omega
    simp [this]
  · exact (Nat.mod_eq_of_lt (by omega)).symm

theorem wrap_next_lt (n i : Nat) (h : i < n) : wrap_next n i < n := by
  unfold wrap_next
  split_ifs <;> omega

theorem wrap_next_iterate (n : Nat) (k i : Nat) (h : i < n) :
    (wrap_next n)^[k] i = (i + k) % n := by
  induction k generalizing i with
  | zero => simpa using (Nat.mod_eq_of_lt h).symm
  | succ k ih =>
      rw [Function.iterate_succ_apply, wrap_next_eq_mod n i h,
        ih ((i + 1) % n) (Nat.mod_lt _ (by omega)), Nat.mod_add_mod]
      have harg : i + 1 + k = i + (k + 1) := by omega
      rw [harg]

theorem wrap_next_closure (n i : Nat) (h0 : 0 < n) (h : i < n) :
    (wrap_next n)^[n] i = i := by
  rw [wrap_next_iterate n n i h, Nat.add_mod_right, Nat.mod_eq_of_lt h]

/-! ## Per-pane wraparound behaviour -/

theorem net_move_down_fields (s : NetConnect) :
    (s.move_selected_down).wifi_list = s.wifi_list
    ∧ (s.move_selected_down).selected_ssid
        = wrap_next s.wifi_list.length s.selected_ssid :=
  ⟨rfl, rfl⟩

theorem net_move_down_iterate (k : Nat) (s : NetConnect) :
    (NetConnect.move_selected_down^[k] s).wifi_list = s.wifi_list
    ∧ (NetConnect.move_selected_down^[k] s).selected_ssid
        = (wrap_next s.wifi_list.length)^[k] s.selected_ssid := by
  induction k generalizing s with
  | zero => exact ⟨rfl, rfl⟩
  | succ k ih =>
      simp only [Function.iterate_succ_apply]
      obtain ⟨hl, hs⟩ := ih s.move_selected_down
      exact ⟨hl, hs⟩

theorem menu_move_down_iterate (k : Nat) (m : ContentMenu) :
    (ContentMenu.move_selected_down^[k] m).items = m.items
    ∧ (ContentMenu.move_selected_down^[k] m).selected_button
        = (wrap_next m.items.length)^[k] m.selected_button := by
  induction k generalizing m with
  | zero => exact ⟨rfl, rfl⟩
  | succ k ih =>
      simp only [Function.iterate_succ_apply]
      obtain ⟨hl, hs⟩ := ih m.move_selected_down
      exact ⟨hl, hs⟩

/-- Iterated audio down-move in the Option monad (a `none` anywhere, i.e. a
panic of the source, aborts the iteration). -/
def AudioMixer.move_down_iter : Nat → AudioMixer → Option AudioMixer
  | 0, s => some s
  | k + 1, s => s.move_selected_down.bind (AudioMixer.move_down_iter k)

theorem audio_move_down_step (s : AudioMixer)
    (hi : s.selected_audio < s.audio_list.length) :
    ∃ s', s.move_selected_down = some s'
      ∧ s'.audio_list = s.audio_list
      ∧ s'.selected_audio = wrap_next s.audio_list.length s.selected_audio := by
  have hlt := wrap_next_lt s.audio_list.length s.selected_audio hi
  obtain ⟨⟨name, vol, id⟩, hget⟩ :
      ∃ x, s.audio_list.get? (wrap_next s.audio_list.length s.selected_audio)
        = some x := ⟨_, List.get?_eq_get hlt⟩
  refine ⟨{ s with
      selected_audio := wrap_next s.audio_list.length s.selected_audio,
      selected_volume := vol, selected_id := id }, ?_, rfl, rfl⟩
  simp only [AudioMixer.move_selected_down, hget]

theorem audio_move_down_iterate (k : Nat) (s : AudioMixer)
    (hi : s.selected_audio < s.audio_list.length) :
    ∃ s', AudioMixer.move_down_iter k s = some s'
      ∧ s'.audio_list = s.audio_list
      ∧ s'.selected_audio = (wrap_next s.audio_list.length)^[k] s.selected_audio := by
  induction k generalizing s with
  | zero => exact ⟨s, rfl, rfl, rfl⟩
  | succ k ih =>
      obtain ⟨s₁, hstep, hlist, hsel⟩ := audio_move_down_step s hi
      have hi₁ : s₁.selected_audio < s₁.audio_list.length := by
        rw [hlist, hsel]; exact wrap_next_lt _ _ hi
      obtain ⟨s', hiter, hlist', hsel'⟩ := ih s₁ hi₁
      refine ⟨s', ?_, by rw [hlist', hlist], ?_⟩
      · show s.move_selected_down.bind (AudioMixer.move_down_iter k) = some s'
        rw [hstep]
        exact hiter
      · rw [hsel', hlist, hsel, Function.iterate_succ_apply]

/-- C7: on every non-empty list with a valid starting selection, moving the
selection down n times (n the list length) returns it to the start, for the
network pane, the audio pane (where the moves also succeed without a panic)
and the menu host. -/
theorem c7_wraparound_closure (s : NetConnect) (a : AudioMixer) (m : ContentMenu)
    (hn : 0 < s.wifi_list.length) (hi : s.selected_ssid < s.wifi_list.length)
    (han : 0 < a.audio_list.length) (hai : a.selected_audio < a.audio_list.length)
    (hmn : 0 < m.items.length) (hmi : m.selected_button < m.items.length) :
    (NetConnect.move_selected_down^[s.wifi_list.length] s).selected_ssid
        = s.selected_ssid
    ∧ (∃ a', AudioMixer.move_down_iter a.audio_list.length a = some a'
        ∧ a'.selected_audio = a.selected_audio)
    ∧ (ContentMenu.move_selected_down^[m.items.length] m).selected_button
        = m.selected_button := by
  refine ⟨?_, ?_, ?_⟩
  · rw [(net_move_down_iterate _ s).2, wrap_next_closure _ _ hn hi]
  · obtain ⟨a', hiter, hlist, hsel⟩ :=
      audio_move_down_iterate a.audio_list.length a hai
    exact ⟨a', hiter, by rw [hsel, wrap_next_closure _ _ han hai]⟩
  · rw [(menu_move_down_iterate _ m).2, wrap_next_closure _ _ hmn hmi]

/-- Witness inputs: a two-entry network pane state with a valid selection. -/
def netW : NetConnect :=
  { NetConnect.new with wifi_list := [("alpha", 80), ("beta", 45)] }

/-- Witness inputs: a two-channel audio pane state selecting the second. -/
def audioW : AudioMixer :=
  { selected_audio := 1, selected_id := "9", selected_volume := 20,
    audio_list := [("A", 10, "4"), ("B", 20, "9")], started_refresh := false }

/-- Witness inputs: a three-item menu host selecting the last item. -/
def menuW : ContentMenu :=
  { selected_button := 2, items := ["Clock", "Net", "Audio"] }

/-- Witness for C7 on the concrete two-entry, two-channel and three-item
states: moving down length-many times restores each selection. -/
theorem c7_wraparound_closure_witness :
    (NetConnect.move_selected_down^[netW.wifi_list.length] netW).selected_ssid
        = netW.selected_ssid
    ∧ (∃ a', AudioMixer.move_down_iter audioW.audio_list.length audioW = some a'
        ∧ a'.selected_audio = audioW.selected_audio)
    ∧ (ContentMenu.move_selected_down^[menuW.items.length] menuW).selected_button
        = menuW.selected_button :=
  c7_wraparound_closure netW audioW menuW (by decide) (by decide) (by decide)
    (by decide) (by decide) (by decide)

/-- C5: one iteration of the network worker loop replaces exactly the data
fields (wifi list, connected ssid, connection info) and leaves every
interaction-state field (mode flags, prompt buffers, scroll offset,
selection index) unchanged. -/
theorem c5_refresh_preserves_interaction (s : NetConnect)
    (new_list : List (String × Nat)) (new_connected : String)
    (new_info : List String) :
    (s.refresh_step new_list new_connected new_info).show_prompt = s.show_prompt
    ∧ (s.refresh_step new_list new_connected new_info).show_info = s.show_info
    ∧ (s.refresh_step new_list new_connected new_info).prompt_ssid = s.prompt_ssid
    ∧ (s.refresh_step new_list new_connected new_info).prompt_pass = s.prompt_pass
    ∧ (s.refresh_step new_list new_connected new_info).scroll_offset = s.scroll_offset
    ∧ (s.refresh_step new_list new_connected new_info).selected_ssid = s.selected_ssid
    ∧ (s.refresh_step new_list new_connected new_info).started_refresh = s.started_refresh
    ∧ (s.refresh_step new_list new_connected new_info).wifi_list = new_list
    ∧ (s.refresh_step new_list new_connected new_info).connected_ssid = new_connected
    ∧ (s.refresh_step new_list new_connected new_info).connection_info = new_info :=
  ⟨rfl, rfl, rfl, rfl, rfl, rfl, rfl, rfl, rfl, rfl⟩

/-- C6: worker start is idempotent through the set-once flag, for both
panes: a first call with the flag clear sets it and spawns the worker, any
call with the flag set is a no-op that leaves the state unchanged and
spawns nothing, and hence a second call right after any call never spawns —
the flag transitions false to true at most once. -/
theorem c6_start_once_idempotent :
    (∀ s : NetConnect, s.started_refresh = false →
        s.start_auto_refresh = ({ s with started_refresh := true }, true))
    ∧ (∀ s : NetConnect, s.started_refresh = true →
        s.start_auto_refresh = (s, false))
    ∧ (∀ s : NetConnect,
        s.start_auto_refresh.1.start_auto_refresh = (s.start_auto_refresh.1, false))
    ∧ (∀ a : AudioMixer, a.started_refresh = false →
        a.start_auto_refresh = ({ a with started_refresh := true }, true))
    ∧ (∀ a : AudioMixer, a.started_refresh = true →
        a.start_auto_refresh = (a, false))
    ∧ (∀ a : AudioMixer,
        a.start_auto_refresh.1.start_auto_refresh = (a.start_auto_refresh.1, false)) := by
  refine ⟨?_, ?_, ?_, ?_, ?_, ?_⟩
  · intro s h; simp [NetConnect.start_auto_refresh, h]
  · intro s h; simp [NetConnect.start_auto_refresh, h]
  · intro s
    by_cases h : s.started_refresh <;> simp [NetConnect.start_auto_refresh, h]
  · intro a h; simp [AudioMixer.start_auto_refresh, h]
  · intro a h; simp [AudioMixer.start_auto_refresh, h]
  · intro a
    by_cases h : a.started_refresh <;> simp [AudioMixer.start_auto_refresh, h]

/-- Witness for C6 on the freshly constructed panes, whose flag is clear. -/
theorem c6_start_once_idempotent_witness :
    NetConnect.new.start_auto_refresh
        = ({ NetConnect.new with started_refresh := true }, true)
    ∧ AudioMixer.new.start_auto_refresh
        = ({ AudioMixer.new with started_refresh := true }, true) :=
  ⟨c6_start_once_idempotent.1 NetConnect.new rfl,
   c6_start_once_idempotent.2.2.2.1 AudioMixer.new rfl⟩

/-- C2 (amended): the selection mirrors are consistent with the entry at the
selection index after every selection move that completes and after every
worker replacement by a non-empty list that completes, but a volume
adjustment leaves both mirrors untouched even when it replaces the channel
list (they keep their pre-adjustment values until the next move or
refresh). -/
theorem c2_amended_mirrors :
    (∀ s s' : AudioMixer, s.move_selected_down = some s' → s'.mirrors_consistent)
    ∧ (∀ s s' : AudioMixer, s.move_selected_up = some s' → s'.mirrors_consistent)
    ∧ (∀ (s s' : AudioMixer) (new_list : List (String × Nat × String)),
        s.refresh_step new_list = some s' → new_list ≠ [] → s'.mirrors_consistent)
    ∧ (∀ (s : AudioMixer) (id : String) (amount : Nat) (increase : Bool)
        (status : CmdResult) (fetched : List (String × Nat × String)),
        ((s.add_volume id amount increase status fetched).1).selected_volume
            = s.selected_volume
        ∧ ((s.add_volume id amount increase status fetched).1).selected_id
            = s.selected_id) := by
  refine ⟨?_, ?_, ?_, ?_⟩
  · intro s s' h
    simp only [AudioMixer.move_selected_down] at h
    split at h
    · exact Option.noConfusion h
    · rename_i nm vol id heq
      injection h with h₁
      subst h₁
      exact ⟨nm, heq⟩
  · intro s s' h
    simp only [AudioMixer.move_selected_up] at h
    split at h
    · exact Option.noConfusion h
    · rename_i nm vol id heq
      injection h with h₁
      subst h₁
      exact ⟨nm, heq⟩
  · intro s s' new_list h hne
    simp only [AudioMixer.refresh_step] at h
    split at h
    · split at h
      · exact Option.noConfusion h
      · rename_i nm vol id heq
        injection h with h₁
        subst h₁
        exact ⟨nm, heq⟩
    · rename_i hlen
      exact absurd (List.length_eq_zero.mp (by omega)) hne
  · intro s id amount increase status fetched
    rcases status <;> exact ⟨rfl, rfl⟩

/-- Witness for C2 (amended): a down move on a valid two-channel state
reaches a state whose mirrors agree with the entry at the new index. -/
theorem c2_amended_mirrors_witness :
    AudioMixer.mirrors_consistent
      { selected_audio := 0, selected_id := "4", selected_volume := 10,
        audio_list := [("A", 10, "4"), ("B", 20, "9")], started_refresh := false } :=
  c2_amended_mirrors.1 audioW
    { selected_audio := 0, selected_id := "4", selected_volume := 10,
      audio_list := [("A", 10, "4"), ("B", 20, "9")], started_refresh := false }
    rfl

/-! ## Scrolling in the info overlay -/

/-- A key press matching only the content-down binding. -/
def kContentDown : NetKeyEvent :=
  { is_press := true, matches_accept := false, matches_cancel := false,
    matches_info := false, matches_content_up := false,
    matches_content_down := true, is_backspace := false, char := none }

/-- A network pane state in the info overlay with 20 info lines and the
scroll offset at the clamp of the code (20 - 15 = 5). -/
def scrollW : NetConnect :=
  { NetConnect.new with
    show_info := true
    connection_info := List.replicate 20 "line"
    scroll_offset := 5 }

theorem handle_key_connection_info (s : NetConnect) (k : NetKeyEvent) :
    ((s.handle_key_event k).1).connection_info = s.connection_info := by
  cases hc : k.char <;>
    simp only [NetConnect.handle_key_event, NetConnect.accept_connect,
      NetConnect.cancel_connect, NetConnect.move_scrollbar_up,
      NetConnect.move_scrollbar_down, NetConnect.close_info,
      NetConnect.open_info, NetConnect.open_prompt,
      NetConnect.move_selected_up, NetConnect.move_selected_down, hc] <;>
    (first | (split_ifs <;> rfl) | rfl)

theorem handle_key_scroll_bound (s : NetConnect) (k : NetKeyEvent)
    (h : s.scroll_offset ≤ s.connection_info.length - 15) :
    ((s.handle_key_event k).1).scroll_offset
      ≤ s.connection_info.length - 15 := by
  cases hc : k.char <;>
    simp only [NetConnect.handle_key_event, NetConnect.accept_connect,
      NetConnect.cancel_connect, NetConnect.move_scrollbar_up,
      NetConnect.move_scrollbar_down, NetConnect.close_info,
      NetConnect.open_info, NetConnect.open_prompt,
      NetConnect.move_selected_up, NetConnect.move_selected_down, hc] <;>
    (first
      | (split_ifs <;> (dsimp only; omega))
      | (dsimp only; omega))

theorem applyKeys_scroll_bound (keys : List NetKeyEvent) (s : NetConnect)
    (h : s.scroll_offset ≤ s.connection_info.length - 15) :
    (NetConnect.applyKeys keys s).connection_info = s.connection_info
    ∧ (NetConnect.applyKeys keys s).scroll_offset
        ≤ s.connection_info.length - 15 := by
  induction keys generalizing s with
  | nil => exact ⟨rfl, h⟩
  | cons k ks ih =>
      have hinfo := handle_key_connection_info s k
      have hstep := handle_key_scroll_bound s k h
      have h' : ((s.handle_key_event k).1).scroll_offset
          ≤ ((s.handle_key_event k).1).connection_info.length - 15 := by
        rw [hinfo]; exact hstep
      obtain ⟨hi, hb⟩ := ih ((s.handle_key_event k).1) h'
      have hfold : NetConnect.applyKeys (k :: ks) s
          = NetConnect.applyKeys ks ((s.handle_key_event k).1) := rfl
      rw [hinfo] at hi hb
      exact ⟨by rw [hfold, hi], by rw [hfold]; exact hb⟩

/-- C4 (counterexample): with 20 info lines the code clamps the scroll
offset at 20 - 15 = 5, not at max(0, 20 - 12) = 8: at offset 5 a
content-down key leaves the offset unchanged although the claim, with
visible height 12, says it must increase by one. -/
theorem c4_counterexample :
    ¬ (((scrollW.handle_key_event kContentDown).1).scroll_offset
          = scrollW.scroll_offset + 1
        ↔ scrollW.scroll_offset
          < max 0 (scrollW.connection_info.length - 12)) := by
  decide

/-- C4 (amended): a content-down key in the info overlay increases the
scroll offset by one exactly when it is below
connection_info.len().saturating_sub(15) — the clamp uses the full overlay
height 15, not the 12 visible content lines — and a content-up key
decreases it by one exactly when it is positive; consequently with 20 info
lines the offset never exceeds 5 (in particular never exceeds 8) and, being
a Nat, never goes below 0, over every sequence of key events. -/
theorem c4_scroll_clamp_amended :
    (∀ s : NetConnect, (s.move_scrollbar_down).scroll_offset =
        if s.scroll_offset < s.connection_info.length - 15 then
          s.scroll_offset + 1
        else s.scroll_offset)
    ∧ (∀ s : NetConnect, (s.move_scrollbar_up).scroll_offset =
        if 0 < s.scroll_offset then s.scroll_offset - 1 else s.scroll_offset)
    ∧ (∀ (keys : List NetKeyEvent) (s : NetConnect),
        s.connection_info.length = 20 → s.scroll_offset ≤ 5 →
        (NetConnect.applyKeys keys s).scroll_offset ≤ 5
        ∧ (NetConnect.applyKeys keys s).scroll_offset ≤ 8) := by
  refine ⟨?_, ?_, ?_⟩
  · intro s
    simp only [NetConnect.move_scrollbar_down]
    split_ifs <;> rfl
  · intro s
    simp only [NetConnect.move_scrollbar_up]
    split_ifs with h₁ h₂ <;> first | rfl | omega
  · intro keys s h20 h5
    have hb := (applyKeys_scroll_bound keys s (by omega)).2
    omega

/-- Witness for C4 (amended) at the concrete overlay state with 20 info
lines and offset 5, under one content-down key. -/
theorem c4_scroll_clamp_amended_witness :
    (NetConnect.applyKeys [kContentDown] scrollW).scroll_offset ≤ 5
    ∧ (NetConnect.applyKeys [kContentDown] scrollW).scroll_offset ≤ 8 :=
  c4_scroll_clamp_amended.2.2 [kContentDown] scrollW (by decide) (by decide)

/-! ## Password prompt flow -/

/-- A key press matching only the accept binding. -/
def kAccept : NetKeyEvent :=
  { is_press := true, matches_accept := true, matches_cancel := false,
    matches_info := false, matches_content_up := false,
    matches_content_down := false, is_backspace := false, char := none }

/-- A key press matching only the cancel binding. -/
def kCancel : NetKeyEvent :=
  { is_press := true, matches_accept := false, matches_cancel := true,
    matches_info := false, matches_content_up := false,
    matches_content_down := false, is_backspace := false, char := none }

/-- C8: from Browsing, an accept key opens the password prompt and a
following cancel key (or info key) returns the pane to Browsing with the
prompt closed, both prompt buffers empty, and no connect invocation in
either step. -/
theorem c8_prompt_cancel_no_connect (s : NetConnect) (k₁ k₂ : NetKeyEvent)
    (hsp : s.show_prompt = false) (hsi : s.show_info = false)
    (h1p : k₁.is_press = true) (h1u : k₁.matches_content_up = false)
    (h1d : k₁.matches_content_down = false) (h1a : k₁.matches_accept = true)
    (h2p : k₂.is_press = true) (h2a : k₂.matches_accept = false)
    (h2ci : k₂.matches_cancel = true ∨ k₂.matches_info = true) :
    (s.handle_key_event k₁).2 = none
    ∧ ((s.handle_key_event k₁).1.handle_key_event k₂).2 = none
    ∧ ((s.handle_key_event k₁).1.handle_key_event k₂).1.show_prompt = false
    ∧ ((s.handle_key_event k₁).1.handle_key_event k₂).1.show_info = false
    ∧ ((s.handle_key_event k₁).1.handle_key_event k₂).1.prompt_pass = ""
    ∧ ((s.handle_key_event k₁).1.handle_key_event k₂).1.prompt_ssid = "" := by
  have h1 : s.handle_key_event k₁ = (s.open_prompt, none) := by
    simp [NetConnect.handle_key_event, hsp, hsi, h1p, h1u, h1d, h1a]
  have h2 : s.open_prompt.handle_key_event k₂ = (s.open_prompt.cancel_connect, none) := by
    rcases h2ci with hc | hi
    · simp [NetConnect.handle_key_event, NetConnect.open_prompt, h2p, h2a, hc]
    · simp [NetConnect.handle_key_event, NetConnect.open_prompt, h2p, h2a, hi]
  have h3 : ((s.handle_key_event k₁).1.handle_key_event k₂)
      = (s.open_prompt.cancel_connect, none) := by
    rw [h1]; exact h2
  refine ⟨by rw [h1], by rw [h3], ?_, ?_, ?_, ?_⟩ <;>
    rw [h3] <;>
    simp [NetConnect.cancel_connect, NetConnect.open_prompt, hsi]

/-- Witness for C8 on a concrete browsing state with one network, under an
accept key then a cancel key. -/
theorem c8_prompt_cancel_no_connect_witness :
    (netW.handle_key_event kAccept).2 = none
    ∧ ((netW.handle_key_event kAccept).1.handle_key_event kCancel).2 = none
    ∧ ((netW.handle_key_event kAccept).1.handle_key_event kCancel).1.show_prompt = false
    ∧ ((netW.handle_key_event kAccept).1.handle_key_event kCancel).1.show_info = false
    ∧ ((netW.handle_key_event kAccept).1.handle_key_event kCancel).1.prompt_pass = ""
    ∧ ((netW.handle_key_event kAccept).1.handle_key_event kCancel).1.prompt_ssid = "" :=
  c8_prompt_cancel_no_connect netW kAccept kCancel rfl rfl rfl rfl rfl rfl
    rfl rfl (Or.inl rfl)

/-- A prompt-mode state with a captured ssid and an empty password buffer. -/
def promptW : NetConnect :=
  { NetConnect.new with
    show_prompt := true
    prompt_ssid := "alpha" }

/-- C9: an accept key in the password prompt with an empty password buffer
runs no nmcli connect command and raises no error — the prompt still closes
and both buffers are cleared, exactly the state effect of a non-empty
submission (which does invoke the connect command with the captured ssid
and password). -/
theorem c9_empty_password_noop (s : NetConnect) (k : NetKeyEvent)
    (hsp : s.show_prompt = true) (hpass : s.prompt_pass = "")
    (hkp : k.is_press = true) (hka : k.matches_accept = true) :
    (s.handle_key_event k).2 = none
    ∧ (s.handle_key_event k).1.show_prompt = false
    ∧ (s.handle_key_event k).1.prompt_ssid = ""
    ∧ (s.handle_key_event k).1.prompt_pass = ""
    ∧ (∀ s₂ : NetConnect, s₂.show_prompt = true → s₂.prompt_pass ≠ "" →
        (s₂.handle_key_event k).2 = some (s₂.prompt_ssid, s₂.prompt_pass)
        ∧ (s₂.handle_key_event k).1.show_prompt = false
        ∧ (s₂.handle_key_event k).1.prompt_ssid = ""
        ∧ (s₂.handle_key_event k).1.prompt_pass = "") := by
  have h1 : s.handle_key_event k = s.accept_connect := by
    simp [NetConnect.handle_key_event, hsp, hkp, hka]
  refine ⟨?_, by rw [h1]; rfl, by rw [h1]; rfl, by rw [h1]; rfl, ?_⟩
  · rw [h1]
    show NetConnect.connect_command s.prompt_ssid s.prompt_pass = none
    rw [hpass]
    rfl
  · intro s₂ hsp₂ hne₂
    have h2 : s₂.handle_key_event k = s₂.accept_connect := by
      simp [NetConnect.handle_key_event, hsp₂, hkp, hka]
    refine ⟨?_, by rw [h2]; rfl, by rw [h2]; rfl, by rw [h2]; rfl⟩
    rw [h2]
    show NetConnect.connect_command s₂.prompt_ssid s₂.prompt_pass
      = some (s₂.prompt_ssid, s₂.prompt_pass)
    rw [NetConnect.connect_command, if_neg hne₂]

/-- Witness for C9 on a concrete prompt state with an empty password buffer
under an accept key, including the comparison submission with password
"pw". -/
theorem c9_empty_password_noop_witness :
    (promptW.handle_key_event kAccept).2 = none
    ∧ (promptW.handle_key_event kAccept).1.show_prompt = false
    ∧ (promptW.handle_key_event kAccept).1.prompt_ssid = ""
    ∧ (promptW.handle_key_event kAccept).1.prompt_pass = ""
    ∧ (∀ s₂ : NetConnect, s₂.show_prompt = true → s₂.prompt_pass ≠ "" →
        (s₂.handle_key_event kAccept).2 = some (s₂.prompt_ssid, s₂.prompt_pass)
        ∧ (s₂.handle_key_event kAccept).1.show_prompt = false
        ∧ (s₂.handle_key_event kAccept).1.prompt_ssid = ""
        ∧ (s₂.handle_key_event kAccept).1.prompt_pass = "") :=
  c9_empty_password_noop promptW kAccept rfl rfl rfl rfl

/-! ## The wifi list builder (NetConnect::make_wifi_list) -/

/-- Model of `line.splitn(2, ':')` over the characters of the line: the text
before the first colon and the whole remainder after it, `none` when the
line has no colon (the filter_map closure then skips the line). -/
def split2_colon : List Char → Option (List Char × List Char)
  | [] => none
  | c :: rest =>
      if c = ':' then some ([], rest)
      else
        match split2_colon rest with
        | none => none
        | some (a, b) => some (c :: a, b)

/-- Model of `str::trim`: drop leading and trailing whitespace. -/
def trim_chars (cs : List Char) : List Char :=
  ((cs.dropWhile Char.isWhitespace).reverse.dropWhile Char.isWhitespace).reverse

/-- Model of `str::parse::<u8>()`: an optional leading plus sign, then one
or more digits whose value fits in 0..255; anything else fails (and the
filter_map closure skips the line). -/
def parse_u8_chars (cs : List Char) : Option Nat :=
  let t := match cs with
    | '+' :: rest => rest
    | _ => cs
  if t ≠ [] ∧ t.all Char.isDigit then
    let n := t.foldl (fun acc c => acc * 10 + (c.toNat - 48)) 0
    if n ≤ 255 then some n else none
  else none

/-- The filter_map closure of `NetConnect::make_wifi_list` on one line of
nmcli terse output: split at the first colon, trim both parts, parse the
signal as u8, and keep `(ssid, signal)` unless the ssid is empty. -/
def parse_wifi_line (line : String) : Option (String × Nat) :=
  match split2_colon line.toList with
  | none => none
  | some (p, rest) =>
      let ssid := trim_chars p
      let signal_str := trim_chars rest
      match parse_u8_chars signal_str with
      | none => none
      | some signal =>
          if ssid = [] then none else some (String.mk ssid, signal)

/-- Stable insertion before the first entry whose signal is not larger. -/
def insert_desc (x : String × Nat) : List (String × Nat) → List (String × Nat)
  | [] => [x]
  | y :: ys => if x.2 ≥ y.2 then x :: y :: ys else y :: insert_desc x ys

/-- Model of `networks.sort_by(|a, b| b.1.cmp(&a.1))`: the stable sort by
descending signal (Rust sort_by is stable; stable insertion sort computes
the same permutation for this comparator). -/
def sort_desc : List (String × Nat) → List (String × Nat)
  | [] => []
  | x :: xs => insert_desc x (sort_desc xs)

/-- Model of the `seen_signals` HashSet filter of make_wifi_list: keep an
entry exactly when its signal value has not been seen yet (the set is
modelled as the list of signals inserted so far). -/
def dedup_by_signal (seen : List Nat) : List (String × Nat) → List (String × Nat)
  | [] => []
  | x :: xs =>
      if x.2 ∈ seen then dedup_by_signal seen xs
      else x :: dedup_by_signal (x.2 :: seen) xs

/-- Mirror of `NetConnect::make_wifi_list` on the lines of the nmcli output
text: parse each line (skipping malformed ones and empty ssids), sort by
descending signal, drop entries whose exact signal value was already seen,
and cap the result at 10 entries. -/
def make_wifi_list (lines : List String) : List (String × Nat) :=
  let networks := lines.filterMap parse_wifi_line
  let sorted := sort_desc networks
  (dedup_by_signal [] sorted).take 10

theorem dedup_by_signal_pairwise (l : List (String × Nat)) (seen : List Nat) :
    (dedup_by_signal seen l).Pairwise (fun a b => a.2 ≠ b.2)
    ∧ ∀ x ∈ dedup_by_signal seen l, x.2 ∉ seen := by
  induction l generalizing seen with
  | nil => exact ⟨List.Pairwise.nil, by simp [dedup_by_signal]⟩
  | cons z zs ih =>
      by_cases hz : z.2 ∈ seen
      · simpa [dedup_by_signal, hz] using ih seen
      · obtain ⟨hp, hn⟩ := ih (z.2 :: seen)
        constructor
        · simp only [dedup_by_signal, if_neg hz]
          refine List.Pairwise.cons (fun y hy => ?_) hp
          have := hn y hy
          simp only [List.mem_cons, not_or] at this
          exact fun he => this.1 he.symm
        · intro x hx
          simp only [dedup_by_signal, if_neg hz, List.mem_cons] at hx
          rcases hx with rfl | hx
          · exact hz
          · have := hn x hx
            simp only [List.mem_cons, not_or] at this
            exact this.2

theorem dedup_by_signal_first (l : List (String × Nat)) :
    ∀ (seen : List Nat) (x : String × Nat), x ∈ dedup_by_signal seen l →
      x.2 ∉ seen ∧ l.find? (fun y => y.2 == x.2) = some x := by
  induction l with
  | nil =>
      intro seen x hx
      simp [dedup_by_signal] at hx
  | cons z zs ih =>
      intro seen x hx
      simp only [dedup_by_signal] at hx
      by_cases hz : z.2 ∈ seen
      · rw [if_pos hz] at hx
        obtain ⟨hns, hfind⟩ := ih seen x hx
        refine ⟨hns, ?_⟩
        rw [List.find?_cons_of_neg, hfind]
        simp only [beq_iff_eq]
        exact fun he => hns (he ▸ hz)
      · rw [if_neg hz] at hx
        rcases List.mem_cons.mp hx with rfl | hx'
        · refine ⟨hz, ?_⟩
          rw [List.find?_cons_of_pos]
          simp
        · obtain ⟨hns, hfind⟩ := ih (z.2 :: seen) x hx'
          simp only [List.mem_cons, not_or] at hns
          refine ⟨hns.2, ?_⟩
          rw [List.find?_cons_of_neg, hfind]
          simp only [beq_iff_eq]
          exact fun he => hns.1 he.symm

/-- C10: for every adapter output (modelled as its list of lines), the wifi
list builder returns entries with pairwise-distinct signal values, capped
at 10 entries; among entries of the descending-sorted parse that share an
exact signal value only the first is kept — every returned entry is the
first entry carrying its signal in the sorted list, and the dedup happens
before the cap. -/
theorem c10_wifi_list_distinct_signals (lines : List String) :
    (make_wifi_list lines).Pairwise (fun a b => a.2 ≠ b.2)
    ∧ (make_wifi_list lines).length ≤ 10
    ∧ ∀ x ∈ make_wifi_list lines,
        (sort_desc (lines.filterMap parse_wifi_line)).find?
          (fun y => y.2 == x.2) = some x := by
  refine ⟨?_, ?_, ?_⟩
  · exact List.Pairwise.sublist (List.take_sublist 10 _)
      (dedup_by_signal_pairwise (sort_desc (lines.filterMap parse_wifi_line)) []).1
  · exact List.length_take_le 10 _
  · intro x hx
    exact (dedup_by_signal_first _ [] x (List.mem_of_mem_take hx)).2

/-- Witness for C10 on a concrete output with two networks sharing signal
80: the second is dropped, and every kept entry is the first with its
signal in the sorted parse. -/
theorem c10_wifi_list_distinct_signals_witness :
    (make_wifi_list ["a:80", "b:80", "c:45"]).Pairwise (fun a b => a.2 ≠ b.2)
    ∧ (make_wifi_list ["a:80", "b:80", "c:45"]).length ≤ 10
    ∧ ∀ x ∈ make_wifi_list ["a:80", "b:80", "c:45"],
        (sort_desc (["a:80", "b:80", "c:45"].filterMap parse_wifi_line)).find?
          (fun y => y.2 == x.2) = some x :=
  c10_wifi_list_distinct_signals ["a:80", "b:80", "c:45"]
